import Mathlib

/-!
Shallow embedding of the session orchestrator of
`src/frontend/src/components/DiagnosisSection.tsx` (the current variant of the
component, lines 1-1033), together with proofs and refutations of the spec's
claims about it.  Every definition is translated from that source file; line
numbers in the comments refer to it.
-/

namespace PsycheAI

/-! ### JavaScript string primitives

The component manipulates JS strings with `trim()`, `toLowerCase()`,
`slice(0, n)` and `includes()`.  We model them on the character list of a
`String` so that every definition reduces in the kernel.  (JS `trim` strips
Unicode whitespace from both ends; `Char.isWhitespace` covers the whitespace
characters that occur here.) -/

/-- JS `String.prototype.trim`: drop whitespace from both ends. -/
def jsTrim (s : String) : String :=
  ⟨((s.data.dropWhile Char.isWhitespace).reverse.dropWhile Char.isWhitespace).reverse⟩

/-- JS `String.prototype.toLowerCase` (ASCII case folding). -/
def jsToLower (s : String) : String :=
  ⟨s.data.map Char.toLower⟩

/-- JS `String.prototype.slice(0, n)`. -/
def jsTake (n : Nat) (s : String) : String :=
  ⟨s.data.take n⟩

/-- Does `pat` occur as a contiguous substring of `s`?  (JS `includes`.) -/
def listContains : List Char → List Char → Bool
  | [], pat => pat.isEmpty
  | a :: rest, pat => pat.isPrefixOf (a :: rest) || listContains rest pat

/-- JS `String.prototype.includes`. -/
def jsIncludes (s pat : String) : Bool :=
  listContains s.data pat.data

/-- JS truthiness of an optional string field (`undefined`, `null` and `""`
are falsy). -/
def jsTruthy : Option String → Bool
  | none => false
  | some s => !s.isEmpty

/-! ### SpeechChannel: the `rec.onresult` handler (lines 271-307)

State read and written by the handler.  `lastTranscript` models
`lastTranscriptRef.current`, the other fields the `isRecordingRef`,
`sessionEndedRef`, `isSpeakingRef` and `lastAIMessageRef` holders. -/

structure SpeechState where
  isRecording : Bool
  sessionEnded : Bool
  isSpeaking : Bool
  lastTranscript : String
  lastAIMessage : String
deriving DecidableEq

/-- What the `onresult` handler did with a recognized utterance. -/
inductive ResultOutcome
  | duplicate
  | stateIgnored
  | echoIgnored
  | dispatched
deriving DecidableEq

/-- The `rec.onresult` handler (lines 271-307).  The raw transcript is
trimmed; an exact match with `lastTranscriptRef` is dropped; the reference is
then updated *before* the state and echo checks; a result heard while not
recording, after session end, or while speaking is dropped; a result whose
lower-cased text contains the first 20 characters of the last AI message
(lower-cased) is dropped as an echo; otherwise it is dispatched to
`handleUserMessage`. -/
def recOnResult (s : SpeechState) (raw : String) : SpeechState × ResultOutcome :=
  let transcript := jsTrim raw
  if transcript == s.lastTranscript then
    (s, .duplicate)
  else
    let s1 := { s with lastTranscript := transcript }
    if !s1.isRecording || s1.sessionEnded || s1.isSpeaking then
      (s1, .stateIgnored)
    else if !(s1.lastAIMessage.isEmpty)
        && jsIncludes (jsToLower transcript) (jsToLower (jsTake 20 s1.lastAIMessage)) then
      (s1, .echoIgnored)
    else
      (s1, .dispatched)

/-- The spec's notion of utterance normalization ("case and whitespace
normalization").  Modelled from the spec's words, for comparison with the
source's exact-match test. -/
def specNormalize (s : String) : String :=
  jsToLower (jsTrim s)

example : jsTrim "  Hello " = "Hello" := by decide
example : specNormalize "hello" = specNormalize "Hello" := by decide
example : jsIncludes "abcd" "bc" = true := by decide
example : jsIncludes "hello" "how are you feeling t" = false := by decide

/-! ### PlaybackChannel: `playBackendTTS` (lines 94-145)

We record the sequence of primitive effects a single call performs, as a
function of how the environment resolves it.  All awaited operations of the
function appear as actions, in source order. -/

/-- Primitive effects of `playBackendTTS`. -/
inductive TTSAct
  | setSpeaking (b : Bool)
  | recStop
  | ttsRequest
  | play
  | recStart
  | setErrorMsg
deriving DecidableEq

/-- How one call to `playBackendTTS` resolves.
* `fetchFail`: the `/tts` fetch rejects, or responds non-ok (the `throw` on
  line 109) — caught by the `catch` on line 140.
* `playRejected`: `audio.play()` rejects (line 138) — caught by the `catch`.
* `audioError`: `audio.onerror` fires (lines 130-135), rejecting the promise,
  which the `catch` handles again.
* `completed`: `audio.onended` fires (lines 116-129). -/
inductive TTSOutcome
  | fetchFail
  | playRejected
  | audioError
  | completed
deriving DecidableEq

/-- The effect trace of one `playBackendTTS` call, given the values of
`isRecordingRef`/`sessionEndedRef` read in `audio.onended` and the outcome.
Lines 97 and 101 (`setIsSpeaking(true)`; `rec.stop()`) always run first;
afterwards the paths diverge exactly as in the source. -/
def playBackendTTSTrace (recording ended : Bool) : TTSOutcome → List TTSAct
  | .fetchFail =>
      [.setSpeaking true, .recStop, .ttsRequest, .setErrorMsg, .setSpeaking false]
  | .playRejected =>
      [.setSpeaking true, .recStop, .ttsRequest, .play, .setErrorMsg, .setSpeaking false]
  | .audioError =>
      [.setSpeaking true, .recStop, .ttsRequest, .play, .setErrorMsg, .setSpeaking false,
       .setErrorMsg, .setSpeaking false]
  | .completed =>
      [.setSpeaking true, .recStop, .ttsRequest, .play, .setSpeaking false]
        ++ (if recording && !ended then [.recStart] else [])

/-- The Speaking values a trace assigns, in order. -/
def speakingWrites (tr : List TTSAct) : List Bool :=
  tr.filterMap fun a => match a with | .setSpeaking b => some b | _ => none

/-! ### The recognition/playback event machine (C1)

The Listening and Speaking indicator flags (`isListening`, `isSpeaking`) are
written only inside callbacks: `rec.onstart` sets Listening (lines 244-247),
`rec.onend`/`rec.onerror` clear it (lines 249-269), and `playBackendTTS` and
its audio callbacks write Speaking.  Callbacks are delivered asynchronously:
`rec.stop()` only *requests* a stop, and `onend` runs later.  The machine
below makes that explicit: `recRunning` is the recognizer's own state,
`pendingStart`/`pendingEnd` record callbacks that have been triggered but not
yet delivered, and `listening`/`speaking` are the two flags. -/

structure OrchState where
  recording : Bool
  ended : Bool
  speaking : Bool
  listening : Bool
  recRunning : Bool
  pendingStart : Bool
  pendingEnd : Bool
deriving DecidableEq

/-- `rec.start()`: the recognizer starts and an `onstart` delivery is owed. -/
def recStartOp (s : OrchState) : OrchState :=
  { s with recRunning := true, pendingStart := true }

/-- `rec.stop()`: if the recognizer is running it stops and an `onend`
delivery is owed; stopping a stopped recognizer fires nothing. -/
def recStopOp (s : OrchState) : OrchState :=
  if s.recRunning then { s with recRunning := false, pendingEnd := true } else s

/-- One asynchronous step of the orchestrator.
* `ttsBegin` — entry of `playBackendTTS` (lines 97-101): Speaking is set and
  the recognizer is stopped in the same handler run.
* `ttsEndOk` — `audio.onended` (lines 116-128): Speaking cleared, then the
  recognizer restarted iff still recording and not ended.
* `ttsFail` — any error path of `playBackendTTS` (lines 130-143): Speaking
  cleared, no restart.
* `recNaturalEnd` — the recognizer ends on its own (end of speech, service
  disconnect), owing an `onend` delivery.
* `deliverStart` — the `onstart` handler runs (lines 244-247).
* `deliverEnd` — the `onend`/`onerror` handler runs (lines 249-269):
  Listening cleared, then restart iff recording and not Speaking.
* `endSess` — `endSession` (lines 514-527): stop recognition, leave Active. -/
inductive Step : OrchState → OrchState → Prop
  | ttsBegin (s : OrchState) (h : s.speaking = false) :
      Step s (recStopOp { s with speaking := true })
  | ttsEndOk (s : OrchState) (h : s.speaking = true) :
      Step s (if s.recording && !s.ended
              then recStartOp { s with speaking := false }
              else { s with speaking := false })
  | ttsFail (s : OrchState) (h : s.speaking = true) :
      Step s { s with speaking := false }
  | recNaturalEnd (s : OrchState) (h : s.recRunning = true) :
      Step s { s with recRunning := false, pendingEnd := true }
  | deliverStart (s : OrchState) (h : s.pendingStart = true) :
      Step s { s with pendingStart := false, listening := true }
  | deliverEnd (s : OrchState) (h : s.pendingEnd = true) :
      Step s (if s.recording && !s.speaking
              then recStartOp { s with pendingEnd := false, listening := false }
              else { s with pendingEnd := false, listening := false })
  | endSess (s : OrchState) :
      Step s (recStopOp { s with recording := false, ended := true })

/-- The steady state of an active session: recognizer listening, idle. -/
def orchInit : OrchState :=
  { recording := true, ended := false, speaking := false, listening := true,
    recRunning := true, pendingStart := false, pendingEnd := false }

/-- States the orchestrator can reach from the active steady state. -/
def OrchReachable (s : OrchState) : Prop :=
  Relation.ReflTransGen Step orchInit s

/-! ### Sample buffers

`GazeTrackingResult` and `EmotionRecognitionResult` (lines 16-43), with the
optional fields the orchestrator reads.  The free-form `data` payloads and
the floating-point `gaze_points` coordinates do not enter any claim and are
not modelled.  Machine eye counts are non-negative integers. -/

structure FrameSample where
  session_id : Option String := none
  timestamp : Option String := none
  eye_count : Option Nat := none
  error : Option String := none
  details : Option String := none
deriving DecidableEq

structure EmotionSample where
  session_id : Option String := none
  summary : Option String := none
  stats : Option String := none
  interpretation : Option String := none
  error : Option String := none
  details : Option String := none
deriving DecidableEq

/-! ### VisualSampler: `sendFrameToBackend` (lines 147-217) -/

/-- How one of the two per-tick fetches settles (`Promise.allSettled`):
rejected (network failure or the 5-second abort), fulfilled with a non-ok
response whose body text is read, or fulfilled ok with a parsed payload.
A rejection reason is a string only when the thrown value was one
(`typeof error === "string"`). -/
inductive FetchOutcome (α : Type)
  | rejected (reasonStr : Option String)
  | fulfilledErr (text : String)
  | fulfilledOk (payload : α)
deriving DecidableEq

/-- The `details` value recorded for a failed fetch:
`typeof error === "string" ? error : "Unknown error"`. -/
def failDetails : Option String → String
  | some s => s
  | none => "Unknown error"

/-- The gaze entry appended by one tick (lines 181-196). -/
def gazeEntry (sid : String) : FetchOutcome FrameSample → FrameSample
  | .fulfilledOk p => p
  | .rejected r =>
      { error := some "Gaze tracking failed", details := some (failDetails r),
        session_id := some sid }
  | .fulfilledErr text =>
      { error := some "Gaze tracking failed", details := some text,
        session_id := some sid }

/-- The emotion entry appended by one tick (lines 198-212). -/
def emotionEntry (sid : String) : FetchOutcome EmotionSample → EmotionSample
  | .fulfilledOk p => p
  | .rejected r =>
      { error := some "Emotion recognition failed", details := some (failDetails r),
        session_id := some sid }
  | .fulfilledErr text =>
      { error := some "Emotion recognition failed", details := some text,
        session_id := some sid }

/-- State touched by `sendFrameToBackend`.  `camReady` stands for the guards
on lines 148 and 152: webcam ref, canvas ref, 2d context and video element
all available. -/
structure SamplerState where
  isRecording : Bool
  sessionEnded : Bool
  camReady : Bool
  sessionId : String
  gazeResults : List FrameSample
  emotionResults : List EmotionSample
deriving DecidableEq

/-- One completed tick of the sampler: after the early-return guards, both
endpoint outcomes are awaited (`Promise.allSettled`, line 164) and one entry
per endpoint is appended, each independent of the other's outcome. -/
def sendFrameToBackend (s : SamplerState)
    (g : FetchOutcome FrameSample) (e : FetchOutcome EmotionSample) : SamplerState :=
  if !s.camReady || !s.isRecording || s.sessionEnded then s
  else
    { s with
      gazeResults := s.gazeResults ++ [gazeEntry s.sessionId g],
      emotionResults := s.emotionResults ++ [emotionEntry s.sessionId e] }

/-- `n` consecutive ticks, with the environment choosing each tick's pair of
endpoint outcomes. -/
def runTicks (s : SamplerState)
    (outs : List (FetchOutcome FrameSample × FetchOutcome EmotionSample)) : SamplerState :=
  outs.foldl (fun st p => sendFrameToBackend st p.1 p.2) s

/-! ### ConversationBridge: `handleUserMessage` (lines 339-386) -/

inductive Sender
  | ai
  | user
deriving DecidableEq

structure Message where
  sender : Sender
  text : String
  timestamp : String
deriving DecidableEq

inductive Role
  | system
  | user
  | assistant
deriving DecidableEq

structure APIMessage where
  role : Role
  content : String
deriving DecidableEq

/-- How the `/chat` call resolves.
* `okReply reply`: ok response whose JSON carries `reply`.
* `httpErr detail`: non-ok response; its JSON `detail` field (a string, or
  absent) feeds `throw new Error(data.detail || "unknown error")` (line 368).
* `fetchThrow msg`: the fetch or JSON parse itself throws `msg`. -/
inductive ChatOutcome
  | okReply (reply : String)
  | httpErr (detail : Option String)
  | fetchThrow (msg : String)
deriving DecidableEq

/-- State touched by `handleUserMessage`. -/
structure ConvState where
  isRecording : Bool
  sessionEnded : Bool
  conversation : List Message
  transcriptLog : List String
  messages : List APIMessage
  lastAIMessage : String
  errorMsg : Option String
deriving DecidableEq

/-- Result of one `handleUserMessage` call: the new state and the text handed
to `playBackendTTS`, if any playback was started. -/
structure ConvResult where
  state : ConvState
  playback : Option String
deriving DecidableEq

/-- `handleUserMessage` (lines 339-386).  The user Message, transcript line
and ChatMessage are appended *before* the `/chat` call (lines 349-351); on
success the assistant entries are appended and playback starts; on failure
the `catch` sets the error notice and nothing else happens. -/
def handleUserMessage (s : ConvState) (userMessage : String) (now : String)
    (outcome : ChatOutcome) : ConvResult :=
  if !s.isRecording || s.sessionEnded then ⟨s, none⟩
  else
    let s1 := { s with
      conversation := s.conversation ++ [(⟨.user, userMessage, now⟩ : Message)],
      transcriptLog := s.transcriptLog ++ ["User: " ++ userMessage],
      messages := s.messages ++ [(⟨.user, userMessage⟩ : APIMessage)] }
    match outcome with
    | .okReply reply =>
        ⟨{ s1 with
            conversation := s1.conversation ++ [(⟨.ai, reply, now⟩ : Message)],
            transcriptLog := s1.transcriptLog ++ ["Assistant: " ++ reply],
            messages := s1.messages ++ [(⟨.assistant, reply⟩ : APIMessage)],
            lastAIMessage := reply },
          some reply⟩
    | .httpErr detail =>
        let m := match detail with
          | some d => if d.isEmpty then "unknown error" else d
          | none => "unknown error"
        ⟨{ s1 with errorMsg := some ("AI service error: " ++ m) }, none⟩
    | .fetchThrow msg =>
        ⟨{ s1 with errorMsg := some ("AI service error: " ++ msg) }, none⟩

/-! ### ResultAggregator: `aggregateResults` (lines 388-503) -/

/-- The value held by the `gazeData` variable: a merged view of the
`GazeReport` / error-payload shapes (lines 26-33), optional fields as in the
source.  The free-form `data` array is not modelled. -/
structure GazeValue where
  session_id : Option String := none
  summary : Option String := none
  stats : Option String := none
  interpretation : Option String := none
  error : Option String := none
  details : Option String := none
deriving DecidableEq

/-- How one `/generate-gaze-report` attempt resolves.
* `httpFail status text`: non-ok response with the given status and body.
* `okClean ...`: ok response whose JSON has no (truthy) `error` field.
* `okWithError err`: ok response whose JSON carries a truthy `error`. -/
inductive GazeAttempt
  | httpFail (status : Nat) (text : String)
  | okClean (summary stats interpretation : String) (sid : Option String)
  | okWithError (err : String)
deriving DecidableEq

def maxAttempts : Nat := 3

/-- Line 427: a frame counts as valid when `!r.error && r.eye_count &&
r.eye_count > 0` (an absent or zero eye count is falsy). -/
def isValidFrame (r : FrameSample) : Bool :=
  !jsTruthy r.error && (match r.eye_count with | some c => decide (c > 0) | none => false)

/-- The last-attempt fallback (lines 424-447): if any frames were collected,
synthesize a local report whose summary and interpretation quote the
valid/total frame counts; otherwise an error payload whose message depends on
a 404 status.  The `stats` line is formatted from floating-point averages
(`toFixed`), which we do not model; `statsText` abstracts that formatted
string. -/
def gazeFallback (gazeResults : List FrameSample) (sid : String)
    (status : Nat) (errorText : String) (statsText : String) : GazeValue :=
  if gazeResults.length > 0 then
    let validFrames := gazeResults.filter isValidFrame
    let totalFrames := gazeResults.length
    { session_id := some sid,
      summary := some ("Eye tracking analysis completed: " ++ toString validFrames.length
        ++ "/" ++ toString totalFrames ++ " frames with eye detections"),
      stats := some statsText,
      interpretation := some ("Fallback analysis based on frontend data. Eyes were detected in "
        ++ toString validFrames.length ++ " out of " ++ toString totalFrames ++ " frames.") }
  else
    { error := some (if status == 404 then "No gaze data collected"
                     else "Gaze report generation failed"),
      details := some errorText,
      session_id := some sid }

/-- The retry loop (lines 399-453), one recursive call per iteration of
`while (attempts < maxAttempts)`.  Returns the number of attempts made, the
backoff delays slept (ms), and the final `gazeData`.  An ok response breaks
the loop whether or not it carries an embedded error (the `break` on line 419
is outside the `if (gazeData.error)`); only a non-ok response retries, and
only after 2 seconds (line 450); the third non-ok response takes the
fallback.  `fuel` is `maxAttempts - attempts`, so the base case is never hit
from the top-level entry. -/
def gazeReportLoop (env : Nat → GazeAttempt) (gazeResults : List FrameSample)
    (sid : String) (statsText : String) : Nat → Nat → Nat × List Nat × GazeValue
  | attempts, 0 => (attempts, [], {})
  | attempts, fuel + 1 =>
    let a := attempts + 1
    match env a with
    | .okClean summary stats interpretation gsid =>
        (a, [], { summary := some summary, stats := some stats,
                  interpretation := some interpretation, session_id := gsid })
    | .okWithError err =>
        (a, [], { error := some err,
                  details := some "Backend returned an error in the response",
                  session_id := some sid })
    | .httpFail status text =>
        if a == maxAttempts then
          (a, [], gazeFallback gazeResults sid status text statsText)
        else
          let r := gazeReportLoop env gazeResults sid statsText a fuel
          (r.1, 2000 :: r.2.1, r.2.2)

/-- The whole retry phase: `attempts = 0`, up to `maxAttempts` iterations. -/
def runGazeReport (env : Nat → GazeAttempt) (gazeResults : List FrameSample)
    (sid : String) (statsText : String) : Nat × List Nat × GazeValue :=
  gazeReportLoop env gazeResults sid statsText 0 maxAttempts

/-- The attempt on which the loop stops: the first of the three whose
response is HTTP-ok, else the third.  (Characterization used by the
theorems; the loop itself is `gazeReportLoop`.) -/
def isOkResponse : GazeAttempt → Bool
  | .httpFail _ _ => false
  | _ => true

def stopIndex (env : Nat → GazeAttempt) : Nat :=
  if isOkResponse (env 1) then 1 else if isOkResponse (env 2) then 2 else 3

/-- The `gazeData` produced for the attempt the loop stops on. -/
def renderAttempt (gazeResults : List FrameSample) (sid : String)
    (statsText : String) : GazeAttempt → GazeValue
  | .okClean summary stats interpretation gsid =>
      { summary := some summary, stats := some stats,
        interpretation := some interpretation, session_id := gsid }
  | .okWithError err =>
      { error := some err, details := some "Backend returned an error in the response",
        session_id := some sid }
  | .httpFail status text => gazeFallback gazeResults sid status text statsText

/-- Lines 455-457: the most recent emotion sample without a truthy error,
found by reversing the buffer and taking the first match; if none, the
explicit error object. -/
def selectLastEmotion (es : List EmotionSample) : EmotionSample :=
  (es.reverse.find? fun r => !jsTruthy r.error).getD
    { error := some "No valid emotion data collected" }

structure VoiceChat where
  reply : Option String := none
  error : Option String := none
deriving DecidableEq

structure FinalReport where
  report : String
  timestamp : String
deriving DecidableEq

/-- `SessionResults` (lines 45-52). -/
structure SessionResults where
  session_id : String
  gaze_tracking : GazeValue
  emotion_recognition : EmotionSample
  voice_chat : VoiceChat
  transcript : String
  final_report : FinalReport
deriving DecidableEq

/-- The artifact built by the `catch` of `aggregateResults` (lines 489-502):
every analysis field carries a descriptive error, the transcript is still the
joined log, and the final report is populated. -/
def allErrorResults (sid : String) (log : List String) (errMsg : String)
    (now : String) : SessionResults :=
  { session_id := sid,
    gaze_tracking := { error := some "Failed to generate gaze report",
                       details := some errMsg, session_id := some sid },
    emotion_recognition := { error := some "Failed to generate emotion report" },
    voice_chat := { error := some "Voice chat analysis failed" },
    transcript := String.intercalate "\n" log,
    final_report := { report := "Analysis completed with errors", timestamp := now } }

/-- `aggregateResults` (lines 388-503).  `exn` abstracts an unexpected
exception raised at any await point inside the `try` block (settle delay,
fetches, body reads): when `some msg`, control reaches the single `catch`
(line 489) and the all-error artifact is returned; otherwise the pipeline
runs the retry loop, selects the emotion sample and assembles the results
(lines 459-485). -/
def aggregateResults (sid : String) (log : List String) (gazeResults : List FrameSample)
    (es : List EmotionSample) (env : Nat → GazeAttempt) (statsText : String)
    (now : String) (exn : Option String) : SessionResults :=
  match exn with
  | some msg => allErrorResults sid log msg now
  | none =>
    let gazeData := (runGazeReport env gazeResults sid statsText).2.2
    let lastEmotion := selectLastEmotion es
    { session_id := sid,
      gaze_tracking :=
        if jsTruthy gazeData.error then
          { error := gazeData.error, details := gazeData.details, session_id := some sid }
        else
          { summary := gazeData.summary, stats := gazeData.stats,
            interpretation := gazeData.interpretation, session_id := gazeData.session_id },
      emotion_recognition :=
        if jsTruthy lastEmotion.error then lastEmotion
        else
          { summary := lastEmotion.summary, stats := lastEmotion.stats,
            interpretation := lastEmotion.interpretation, session_id := lastEmotion.session_id },
      voice_chat := { reply := some "Completed" },
      transcript := String.intercalate "\n" log,
      final_report := { report := "Analysis completed", timestamp := now } }

/-! ### Concrete fixtures used by counterexamples and witnesses -/

/-- Every `/generate-gaze-report` attempt fails at the HTTP level. -/
def envAllFail : Nat → GazeAttempt := fun _ => .httpFail 500 "Internal Server Error"

/-- Attempt 1 returns HTTP-ok with an embedded error; a clean report would be
available from attempt 2 on. -/
def envEmbeddedError : Nat → GazeAttempt := fun n =>
  if n = 1 then .okWithError "Report generation failed"
  else .okClean "clean summary" "clean stats" "clean interpretation" (some "sess")

/-- Ten collected frame samples, four of which have no error and a positive
eye count. -/
def gz10 : List FrameSample :=
  [ { eye_count := some 2 },
    { eye_count := some 0 },
    { error := some "Gaze tracking failed", details := some "timeout", session_id := some "sess" },
    { eye_count := some 1 },
    {},
    { eye_count := some 3, session_id := some "sess" },
    { error := some "Gaze tracking failed" },
    { eye_count := some 2, error := some "Gaze tracking failed" },
    { eye_count := some 1 },
    {} ]

/-- An active sampler with empty buffers. -/
def samplerInit : SamplerState :=
  { isRecording := true, sessionEnded := false, camReady := true,
    sessionId := "sess", gazeResults := [], emotionResults := [] }

/-- Two ticks with mixed endpoint outcomes: gaze succeeds while emotion's
fetch rejects, then gaze responds non-ok while emotion succeeds. -/
def tickOutcomes : List (FetchOutcome FrameSample × FetchOutcome EmotionSample) :=
  [ (.fulfilledOk { eye_count := some 2, session_id := some "sess" }, .rejected none),
    (.fulfilledErr "Internal Server Error", .fulfilledOk { summary := some "calm" }) ]

/-- An active conversation state. -/
def convActive : ConvState :=
  { isRecording := true, sessionEnded := false, conversation := [],
    transcriptLog := [], messages := [], lastAIMessage := "How are you feeling today?",
    errorMsg := none }

/-- A speech state whose previous utterance was "Hello". -/
def speechPrior : SpeechState :=
  { isRecording := true, sessionEnded := false, isSpeaking := false,
    lastTranscript := "Hello", lastAIMessage := "How are you feeling today?" }

/-- A speech state heard while the agent is speaking. -/
def speechWhileSpeaking : SpeechState :=
  { isRecording := true, sessionEnded := false, isSpeaking := true,
    lastTranscript := "", lastAIMessage := "How are you feeling today?" }

/-! ### Helper lemmas -/

/-- One unrolling of the retry loop: an HTTP-ok attempt (clean or carrying an
embedded error) stops the loop with that attempt's rendering; a non-ok
attempt either takes the fallback (on the last attempt) or retries after a
2000 ms backoff. -/
theorem gazeReportLoop_step (env : Nat → GazeAttempt) (gz : List FrameSample)
    (sid st : String) (attempts fuel : Nat) :
    gazeReportLoop env gz sid st attempts (fuel + 1) =
      if isOkResponse (env (attempts + 1)) then
        ((attempts + 1 : Nat), ([] : List Nat), renderAttempt gz sid st (env (attempts + 1)))
      else if attempts + 1 == maxAttempts then
        ((attempts + 1 : Nat), ([] : List Nat), renderAttempt gz sid st (env (attempts + 1)))
      else
        let r := gazeReportLoop env gz sid st (attempts + 1) fuel
        (r.1, 2000 :: r.2.1, r.2.2) := by
  show (match env (attempts + 1) with
    | GazeAttempt.okClean summary stats interpretation gsid =>
        ((attempts + 1 : Nat), ([] : List Nat),
          ({ summary := some summary, stats := some stats,
             interpretation := some interpretation, session_id := gsid } : GazeValue))
    | GazeAttempt.okWithError err =>
        ((attempts + 1 : Nat), ([] : List Nat),
          ({ error := some err, details := some "Backend returned an error in the response",
             session_id := some sid } : GazeValue))
    | GazeAttempt.httpFail status text =>
        if attempts + 1 == maxAttempts then
          ((attempts + 1 : Nat), ([] : List Nat), gazeFallback gz sid status text st)
        else
          let r := gazeReportLoop env gz sid st (attempts + 1) fuel
          (r.1, 2000 :: r.2.1, r.2.2)) = _
  cases h : env (attempts + 1) with
  | okClean a b c d => simp [isOkResponse, renderAttempt]
  | okWithError e => simp [isOkResponse, renderAttempt]
  | httpFail s t => simp [isOkResponse, renderAttempt]

/-- Full characterization of the retry phase: the loop stops on the first
HTTP-ok attempt (or the third attempt), sleeps 2000 ms before every retried
attempt, and renders the stopping attempt's response. -/
theorem runGazeReport_eq (env : Nat → GazeAttempt) (gz : List FrameSample) (sid st : String) :
    runGazeReport env gz sid st =
      (stopIndex env, List.replicate (stopIndex env - 1) 2000,
        renderAttempt gz sid st (env (stopIndex env))) := by
  have h0 : runGazeReport env gz sid st = gazeReportLoop env gz sid st 0 (2 + 1) := rfl
  rw [h0, gazeReportLoop_step]
  have e1 : (0 + 1 : Nat) = 1 := rfl
  rw [e1]
  by_cases h1 : isOkResponse (env 1) = true
  · simp [h1, stopIndex]
  · rw [if_neg h1]
    rw [show ((1 : Nat) == maxAttempts) = false from rfl]
    simp only [Bool.false_eq_true, if_false]
    rw [show (2 : Nat) = 1 + 1 from rfl, gazeReportLoop_step]
    have e2 : (1 + 1 : Nat) = 2 := rfl
    rw [e2]
    by_cases h2 : isOkResponse (env 2) = true
    · simp [h1, h2, stopIndex]
    · rw [if_neg h2]
      rw [show ((2 : Nat) == maxAttempts) = false from rfl]
      simp only [Bool.false_eq_true, if_false]
      rw [show (1 : Nat) = 0 + 1 from rfl, gazeReportLoop_step]
      have e3 : (2 + 1 : Nat) = 3 := rfl
      rw [e3]
      by_cases h3 : isOkResponse (env 3) = true
      · simp [h1, h2, h3, stopIndex]
      · rw [if_neg h3]
        rw [show ((3 : Nat) == maxAttempts) = true from rfl]
        simp [h1, h2, stopIndex]

/-- Every tick leaves the lifecycle flags and session id untouched. -/
theorem sendFrameToBackend_flags (s : SamplerState) (g : FetchOutcome FrameSample)
    (e : FetchOutcome EmotionSample) :
    (sendFrameToBackend s g e).isRecording = s.isRecording ∧
    (sendFrameToBackend s g e).sessionEnded = s.sessionEnded ∧
    (sendFrameToBackend s g e).camReady = s.camReady := by
  unfold sendFrameToBackend
  split <;> simp

/-- Buffer growth over a run of completed ticks while the guards hold. -/
theorem runTicks_lengths (outs : List (FetchOutcome FrameSample × FetchOutcome EmotionSample)) :
    ∀ s : SamplerState, s.camReady = true → s.isRecording = true → s.sessionEnded = false →
      (runTicks s outs).gazeResults.length = s.gazeResults.length + outs.length ∧
      (runTicks s outs).emotionResults.length = s.emotionResults.length + outs.length := by
  induction outs with
  | nil => intro s _ _ _; simp [runTicks]
  | cons p rest ih =>
    intro s hc hr he
    have hstep : sendFrameToBackend s p.1 p.2 =
        { s with gazeResults := s.gazeResults ++ [gazeEntry s.sessionId p.1],
                 emotionResults := s.emotionResults ++ [emotionEntry s.sessionId p.2] } := by
      unfold sendFrameToBackend
      rw [if_neg]
      simp [hc, hr, he]
    have hrun : runTicks s (p :: rest) = runTicks (sendFrameToBackend s p.1 p.2) rest := rfl
    rw [hrun, hstep]
    have := ih { s with gazeResults := s.gazeResults ++ [gazeEntry s.sessionId p.1],
                        emotionResults := s.emotionResults ++ [emotionEntry s.sessionId p.2] }
      hc hr he
    rw [this.1, this.2]
    simp
    omega

/-- After any `onresult` call the dedup reference holds the trimmed text of
the utterance just heard, whatever the outcome. -/
theorem recOnResult_lastTranscript (s : SpeechState) (raw : String) :
    ((recOnResult s raw).1).lastTranscript = jsTrim raw := by
  unfold recOnResult
  by_cases h : (jsTrim raw == s.lastTranscript) = true
  · rw [if_pos h]
    exact (beq_iff_eq.mp h).symm
  · rw [if_neg h]
    dsimp only
    split
    · rfl
    · split <;> rfl

/-! ### Claim C3 -/

/-- C3: when any unexpected exception is raised during the aggregation
pipeline of a manually ended session with non-empty transcript, the returned
`SessionResults` is the uniformly shaped all-error artifact: gaze tracking,
emotion recognition and voice chat each carry a descriptive error, the final
report is populated, and the transcript is still the joined transcript log —
the caller always receives a `SessionResults` value. -/
theorem c3_catch_returns_all_error_artifact (sid : String) (log : List String)
    (gz : List FrameSample) (es : List EmotionSample) (env : Nat → GazeAttempt)
    (st now msg : String) (hlog : log ≠ []) :
    (aggregateResults sid log gz es env st now (some msg)).gaze_tracking.error
        = some "Failed to generate gaze report" ∧
    (aggregateResults sid log gz es env st now (some msg)).gaze_tracking.details = some msg ∧
    (aggregateResults sid log gz es env st now (some msg)).emotion_recognition.error
        = some "Failed to generate emotion report" ∧
    (aggregateResults sid log gz es env st now (some msg)).voice_chat.error
        = some "Voice chat analysis failed" ∧
    (aggregateResults sid log gz es env st now (some msg)).voice_chat.reply = none ∧
    (aggregateResults sid log gz es env st now (some msg)).transcript
        = String.intercalate "\n" log ∧
    (aggregateResults sid log gz es env st now (some msg)).final_report.report
        = "Analysis completed with errors" ∧
    (aggregateResults sid log gz es env st now (some msg)).final_report.timestamp = now :=
  ⟨rfl, rfl, rfl, rfl, rfl, rfl, rfl, rfl⟩

/-- Witness for C3 at a concrete session. -/
theorem c3_catch_returns_all_error_artifact_witness :
    (aggregateResults "sess" ["User: hi"] [] [] envAllFail "stats" "t1"
        (some "boom")).transcript = "User: hi" :=
  ((c3_catch_returns_all_error_artifact "sess" ["User: hi"] [] [] envAllFail "stats" "t1"
    "boom" (by decide)).2.2.2.2.2.1).trans (by decide)

/-! ### Claim C5 -/

/-- C5 counterexample: attempt 1 responds HTTP-ok but with an embedded error
field, and a clean report would be available from attempt 2 on.  The claim
says such a response counts as a failed attempt so the loop proceeds to the
next attempt; the code instead breaks out of the loop after one attempt,
converting the response to an error payload and never seeing the clean
report. -/
theorem c5_embedded_error_retry_counterexample :
    envEmbeddedError 1 = .okWithError "Report generation failed" ∧
    isOkResponse (envEmbeddedError 2) = true ∧
    (runGazeReport envEmbeddedError [] "sess" "stats").1 = 1 ∧
    (runGazeReport envEmbeddedError [] "sess" "stats").2.2 =
      { error := some "Report generation failed",
        details := some "Backend returned an error in the response",
        session_id := some "sess" } := by decide

/-- C5 (amended): only HTTP-level failures count as failed attempts; the
loop makes at most 3 attempts with a 2000 ms backoff before each retried
attempt, and breaks on the *first HTTP-ok response* whether clean or carrying
an embedded error field — an embedded-error response is converted to an
error payload rather than retried (see `renderAttempt`). -/
theorem c5_loop_breaks_on_first_http_ok (env : Nat → GazeAttempt)
    (gz : List FrameSample) (sid st : String) :
    runGazeReport env gz sid st =
      (stopIndex env, List.replicate (stopIndex env - 1) 2000,
        renderAttempt gz sid st (env (stopIndex env))) ∧
    stopIndex env ≤ maxAttempts := by
  refine ⟨runGazeReport_eq env gz sid st, ?_⟩
  unfold stopIndex maxAttempts
  split
  · omega
  · split <;> omega

/-! ### Claim C6 -/

/-- C6: when all three gaze-report attempts fail at the HTTP level and at
least one collected frame sample has no error and a positive eye count, the
fallback's summary reports exactly the count of such samples over the total,
in the form "(valid)/(total) frames with eye detections", and the fallback
is a report, not an error payload. -/
theorem c6_fallback_counts_valid_frames (env : Nat → GazeAttempt)
    (gz : List FrameSample) (sid st : String)
    (h1 : isOkResponse (env 1) = false) (h2 : isOkResponse (env 2) = false)
    (h3 : isOkResponse (env 3) = false)
    (hv : 0 < (gz.filter isValidFrame).length) :
    ((runGazeReport env gz sid st).2.2).summary =
      some ("Eye tracking analysis completed: " ++ toString (gz.filter isValidFrame).length
        ++ "/" ++ toString gz.length ++ " frames with eye detections") ∧
    ((runGazeReport env gz sid st).2.2).interpretation =
      some ("Fallback analysis based on frontend data. Eyes were detected in "
        ++ toString (gz.filter isValidFrame).length ++ " out of " ++ toString gz.length
        ++ " frames.") ∧
    ((runGazeReport env gz sid st).2.2).error = none := by
  have hrun := runGazeReport_eq env gz sid st
  have hstop : stopIndex env = 3 := by simp [stopIndex, h1, h2]
  rw [hrun, hstop]
  have hlen : 0 < gz.length := lt_of_lt_of_le hv (List.length_filter_le _ _)
  cases he : env 3 with
  | okClean a b c d => rw [he] at h3; simp [isOkResponse] at h3
  | okWithError e => rw [he] at h3; simp [isOkResponse] at h3
  | httpFail status text =>
    simp [renderAttempt, gazeFallback, hlen, Nat.pos_iff_ne_zero.mp hlen]

/-- Witness for C6: ten collected samples, four valid, all report attempts
failing — the fallback text is "4/10 frames with eye detections". -/
theorem c6_fallback_counts_valid_frames_witness :
    ((runGazeReport envAllFail gz10 "sess" "stats").2.2).summary =
      some "Eye tracking analysis completed: 4/10 frames with eye detections" :=
  ((c6_fallback_counts_valid_frames envAllFail gz10 "sess" "stats" rfl rfl rfl
    (by decide)).1).trans (by decide)

/-! ### Claim C7 -/

/-- C7: the `emotion_recognition` field of the aggregated results is derived
from the most recent emotion sample with no error (the buffer scanned newest
to oldest, i.e. the last error-free element); when no error-free sample
exists it is the explicit "No valid emotion data collected" error object —
in either case the field is a total, never-null value. -/
theorem c7_emotion_recognition_selection (sid : String) (log : List String)
    (gz : List FrameSample) (es : List EmotionSample) (env : Nat → GazeAttempt)
    (st now : String) :
    (aggregateResults sid log gz es env st now none).emotion_recognition =
      match (es.filter fun r => !jsTruthy r.error).getLast? with
      | some r => { summary := r.summary, stats := r.stats,
                    interpretation := r.interpretation, session_id := r.session_id }
      | none => { error := some "No valid emotion data collected" } := by
  rw [List.filter_getLast?]
  cases h : es.reverse.find? (fun r => !jsTruthy r.error) with
  | none =>
    have hsel : selectLastEmotion es = { error := some "No valid emotion data collected" } := by
      unfold selectLastEmotion
      rw [h]
      rfl
    have htr : jsTruthy (some "No valid emotion data collected") = true := by decide
    simp [aggregateResults, hsel, htr]
  | some r =>
    have hp : (!jsTruthy r.error) = true :=
      @List.find?_some _ (fun q => !jsTruthy q.error) r es.reverse h
    have hsel : selectLastEmotion es = r := by
      unfold selectLastEmotion
      rw [h]
      rfl
    have herr : jsTruthy r.error = false := by
      cases hb : jsTruthy r.error
      · rfl
      · rw [hb] at hp; simp at hp
    simp [aggregateResults, hsel, herr]

/-! ### Claim C4 -/

/-- C4: every completed sampler tick while the session is Active appends
exactly one frame sample and exactly one emotion sample — each either the
endpoint's success payload or an error-tagged entry, independently of the
other endpoint's outcome — so after `n` completed ticks each buffer has
grown by exactly `n` entries. -/
theorem c4_one_sample_per_endpoint_per_tick (s : SamplerState)
    (outs : List (FetchOutcome FrameSample × FetchOutcome EmotionSample))
    (hc : s.camReady = true) (hr : s.isRecording = true) (he : s.sessionEnded = false) :
    (∀ (g : FetchOutcome FrameSample) (e : FetchOutcome EmotionSample),
        (sendFrameToBackend s g e).gazeResults
            = s.gazeResults ++ [gazeEntry s.sessionId g] ∧
        (sendFrameToBackend s g e).emotionResults
            = s.emotionResults ++ [emotionEntry s.sessionId e]) ∧
    (runTicks s outs).gazeResults.length = s.gazeResults.length + outs.length ∧
    (runTicks s outs).emotionResults.length = s.emotionResults.length + outs.length := by
  refine ⟨?_, runTicks_lengths outs s hc hr he⟩
  intro g e
  unfold sendFrameToBackend
  rw [if_neg]
  · exact ⟨rfl, rfl⟩
  · simp [hc, hr, he]

/-- Witness for C4: two ticks with mixed outcomes append one entry per
endpoint per tick. -/
theorem c4_one_sample_per_endpoint_per_tick_witness :
    (runTicks samplerInit tickOutcomes).gazeResults.length
        = samplerInit.gazeResults.length + tickOutcomes.length ∧
    (runTicks samplerInit tickOutcomes).emotionResults.length
        = samplerInit.emotionResults.length + tickOutcomes.length :=
  (c4_one_sample_per_endpoint_per_tick samplerInit tickOutcomes rfl rfl rfl).2

/-! ### Claim C8 -/

/-- C8 counterexample: the session is Active with an empty transcript, the
utterance "I feel sad" is handled, and the `/chat` call fails.  The claim
says nothing is appended to the Message transcript or the ChatMessage
history; in the code both were appended *before* the call and are not rolled
back, so after the failure the transcript log holds the user line and the
history holds the user ChatMessage.  (No playback starts and the error is
surfaced, as the claim also says.) -/
theorem c8_user_entries_persist_counterexample :
    (handleUserMessage convActive "I feel sad" "t0" (.httpErr (some "model overloaded"))).state.transcriptLog
        = ["User: I feel sad"] ∧
    (handleUserMessage convActive "I feel sad" "t0" (.httpErr (some "model overloaded"))).state.messages
        = [(⟨.user, "I feel sad"⟩ : APIMessage)] ∧
    (handleUserMessage convActive "I feel sad" "t0" (.httpErr (some "model overloaded"))).state.conversation
        = [(⟨.user, "I feel sad", "t0"⟩ : Message)] ∧
    (handleUserMessage convActive "I feel sad" "t0" (.httpErr (some "model overloaded"))).state.errorMsg
        = some "AI service error: model overloaded" ∧
    (handleUserMessage convActive "I feel sad" "t0" (.httpErr (some "model overloaded"))).playback
        = none := by decide

/-- C8 (amended): when the `/chat` call fails for a validated utterance, an
error is surfaced, no assistant Message or ChatMessage is appended, the last
AI message is unchanged and no playback is started; but the user's Message,
transcript line and ChatMessage — appended before the call — remain, so the
transcript and history each grow by exactly the user entry. -/
theorem c8_failure_appends_only_user_entry (s : ConvState) (m now : String)
    (outcome : ChatOutcome) (hr : s.isRecording = true) (he : s.sessionEnded = false)
    (hf : (match outcome with | .okReply _ => false | _ => true) = true) :
    (handleUserMessage s m now outcome).playback = none ∧
    (handleUserMessage s m now outcome).state.conversation
        = s.conversation ++ [(⟨.user, m, now⟩ : Message)] ∧
    (handleUserMessage s m now outcome).state.transcriptLog
        = s.transcriptLog ++ ["User: " ++ m] ∧
    (handleUserMessage s m now outcome).state.messages
        = s.messages ++ [(⟨.user, m⟩ : APIMessage)] ∧
    (handleUserMessage s m now outcome).state.lastAIMessage = s.lastAIMessage ∧
    ((handleUserMessage s m now outcome).state.errorMsg).isSome = true := by
  cases outcome with
  | okReply r => simp at hf
  | httpErr d =>
    cases d with
    | none => simp [handleUserMessage, hr, he]
    | some dv => cases hb : dv.isEmpty <;> simp [handleUserMessage, hr, he, hb]
  | fetchThrow msg => simp [handleUserMessage, hr, he]

/-- Witness for C8 (amended) at a concrete failing call. -/
theorem c8_failure_appends_only_user_entry_witness :
    (handleUserMessage convActive "hi" "t0" (.fetchThrow "network down")).playback = none ∧
    (handleUserMessage convActive "hi" "t0" (.fetchThrow "network down")).state.conversation
        = convActive.conversation ++ [(⟨.user, "hi", "t0"⟩ : Message)] ∧
    (handleUserMessage convActive "hi" "t0" (.fetchThrow "network down")).state.transcriptLog
        = convActive.transcriptLog ++ ["User: " ++ "hi"] ∧
    (handleUserMessage convActive "hi" "t0" (.fetchThrow "network down")).state.messages
        = convActive.messages ++ [(⟨.user, "hi"⟩ : APIMessage)] ∧
    (handleUserMessage convActive "hi" "t0" (.fetchThrow "network down")).state.lastAIMessage
        = convActive.lastAIMessage ∧
    ((handleUserMessage convActive "hi" "t0" (.fetchThrow "network down")).state.errorMsg).isSome
        = true :=
  c8_failure_appends_only_user_entry convActive "hi" "t0" (.fetchThrow "network down")
    rfl rfl rfl

/-! ### Claim C9 -/

/-- C9 counterexample: the previous utterance was "Hello" and the next one is
"hello".  The two are identical after case-and-whitespace normalization, so
the claim says the second must be dropped; the code's comparison is exact
(trim-only, case-sensitive) and the utterance is dispatched. -/
theorem c9_case_normalized_duplicate_counterexample :
    specNormalize "hello" = specNormalize speechPrior.lastTranscript ∧
    (recOnResult speechPrior "hello").2 = .dispatched := by decide

/-- C9 (amended): an utterance is dropped as a duplicate iff its *trimmed*
text is exactly equal (case-sensitively) to the stored previous transcript;
consequently two consecutive utterances with equal trimmed text are never
both forwarded — the second is always dropped as a duplicate — and a
dispatched utterance never repeats the stored previous trimmed text. -/
theorem c9_exact_trim_dedup (s : SpeechState) (r1 r2 : String)
    (h : jsTrim r2 = jsTrim r1) :
    (recOnResult ((recOnResult s r1).1) r2).2 = .duplicate ∧
    ∀ t : String, (recOnResult s t).2 = .dispatched → jsTrim t ≠ s.lastTranscript := by
  constructor
  · have hl := recOnResult_lastTranscript s r1
    generalize hg : (recOnResult s r1).1 = s1 at hl ⊢
    unfold recOnResult
    dsimp only
    rw [h, hl]
    rw [if_pos (beq_self_eq_true _)]
  · intro t hdisp heq
    unfold recOnResult at hdisp
    dsimp only at hdisp
    rw [if_pos (beq_iff_eq.mpr heq)] at hdisp
    simp at hdisp

/-- Witness for C9 (amended): "Yes " followed by " Yes" — the second is
dropped as a duplicate. -/
theorem c9_exact_trim_dedup_witness :
    (recOnResult ((recOnResult speechPrior "Yes ").1) " Yes").2 = .duplicate :=
  (c9_exact_trim_dedup speechPrior "Yes " " Yes" (by decide)).1

/-! ### Claim C10 -/

/-- C10: the dedup reference is updated before the state and echo checks, so
an utterance heard while Speaking is dropped for state reasons yet still
becomes the stored "previous" utterance; when the user repeats it verbatim
after Speaking has cleared, the repetition is dropped as a duplicate even
though the first occurrence was never processed. -/
theorem c10_ignored_utterance_still_becomes_dedup_reference (s : SpeechState)
    (u : String) (hsp : s.isSpeaking = true) (hne : jsTrim u ≠ s.lastTranscript) :
    (recOnResult s u).2 = .stateIgnored ∧
    ((recOnResult s u).1).lastTranscript = jsTrim u ∧
    (recOnResult { (recOnResult s u).1 with isSpeaking := false } u).2 = .duplicate := by
  have hbeq : (jsTrim u == s.lastTranscript) = false := by
    cases hb : jsTrim u == s.lastTranscript
    · rfl
    · exact absurd (beq_iff_eq.mp hb) hne
  refine ⟨?_, recOnResult_lastTranscript s u, ?_⟩
  · unfold recOnResult
    rw [if_neg (by simp [hbeq])]
    dsimp only
    rw [if_pos (by simp [hsp])]
  · have hl := recOnResult_lastTranscript s u
    generalize hg : (recOnResult s u).1 = s1 at hl ⊢
    unfold recOnResult
    dsimp only
    rw [hl]
    rw [if_pos (beq_self_eq_true _)]

/-- Witness for C10: "stop please" is heard while the agent speaks and is
ignored; repeated afterwards, it is silently dropped as a duplicate. -/
theorem c10_ignored_utterance_still_becomes_dedup_reference_witness :
    (recOnResult speechWhileSpeaking "stop please").2 = .stateIgnored ∧
    ((recOnResult speechWhileSpeaking "stop please").1).lastTranscript
        = jsTrim "stop please" ∧
    (recOnResult { (recOnResult speechWhileSpeaking "stop please").1 with isSpeaking := false }
        "stop please").2 = .duplicate :=
  c10_ignored_utterance_still_becomes_dedup_reference speechWhileSpeaking "stop please"
    rfl (by decide)

/-! ### Claim C1 -/

/-- C1 counterexample: from the active steady state (recognizer listening,
nobody speaking), one `ttsBegin` step — the entry of `playBackendTTS`, which
sets Speaking and *requests* a recognizer stop — reaches a state in which
the Speaking flag is already true while the Listening flag is still true,
because the recognizer's `onend` callback (which clears Listening) has not
yet been delivered.  So the Listening and Speaking flags are simultaneously
true at a reachable instant, contradicting the claim. -/
theorem c1_listening_and_speaking_overlap_counterexample :
    OrchReachable
      { recording := true, ended := false, speaking := true, listening := true,
        recRunning := false, pendingStart := false, pendingEnd := true } ∧
    ({ recording := true, ended := false, speaking := true, listening := true,
       recRunning := false, pendingStart := false, pendingEnd := true } : OrchState).listening
        = true ∧
    ({ recording := true, ended := false, speaking := true, listening := true,
       recRunning := false, pendingStart := false, pendingEnd := true } : OrchState).speaking
        = true := by
  refine ⟨?_, rfl, rfl⟩
  have h := Step.ttsBegin orchInit rfl
  have he : recStopOp { orchInit with speaking := true } =
      { recording := true, ended := false, speaking := true, listening := true,
        recRunning := false, pendingStart := false, pendingEnd := true } := rfl
  exact Relation.ReflTransGen.single (he ▸ h)

/-- C1 (amended): in every reachable state the *recognizer itself* is never
running while Speaking is true — every transition that sets Speaking also
requests the recognizer stop in the same handler run, and the recognizer is
only (re)started when Speaking is false.  The Listening *flag* is cleared
only when the recognizer's end callback is delivered, so the two flags can
overlap transiently (see the counterexample), but the exclusive use of the
microphone itself is preserved. -/
theorem c1_recognizer_never_runs_while_speaking (s : OrchState)
    (hs : OrchReachable s) (hr : s.recRunning = true) : s.speaking = false := by
  revert hr
  induction hs with
  | refl => intro _; rfl
  | @tail b c hab step ih =>
    cases step with
    | ttsBegin h =>
      intro hr
      unfold recStopOp at hr
      split at hr <;> simp_all
    | ttsEndOk h =>
      intro _
      split <;> rfl
    | ttsFail h => intro _; rfl
    | recNaturalEnd h => intro hr; simp_all
    | deliverStart h => intro hr; exact ih hr
    | deliverEnd h =>
      intro hr
      by_cases hcond : (b.recording && !b.speaking) = true
      · rw [if_pos hcond]
        have hsp := ((Bool.and_eq_true _ _).mp hcond).2
        simpa using hsp
      · rw [if_neg hcond] at hr ⊢
        exact ih hr
    | endSess =>
      intro hr
      unfold recStopOp at hr
      split at hr <;> simp_all

/-- Witness for C1 (amended): the initial steady state is reachable, the
recognizer is running there, and indeed Speaking is false. -/
theorem c1_recognizer_never_runs_while_speaking_witness : orchInit.speaking = false :=
  c1_recognizer_never_runs_while_speaking orchInit Relation.ReflTransGen.refl rfl

/-! ### Claim C2 -/

/-- C2 counterexample: the session is Active (recording, not ended) and the
TTS request fails.  The claim says the recognizer is restarted iff the
session is still Active also on error paths; the error path of
`playBackendTTS` performs no `rec.start()` at all, although Speaking is set
to false and exactly one request was attempted. -/
theorem c2_no_restart_on_error_counterexample :
    TTSAct.recStart ∉ playBackendTTSTrace true false .fetchFail ∧
    speakingWrites (playBackendTTSTrace true false .fetchFail) = [true, false] ∧
    (playBackendTTSTrace true false .fetchFail).count .ttsRequest = 1 := by decide

/-- C2 (amended): every call to `playBackendTTS` makes exactly one TTS
request and at most one playback attempt (no retry), its last write to the
Speaking flag is `false` on every path (completion and all error paths), and
the recognizer is restarted *iff the playback completed successfully and the
session is still Active* — on TTS-request or playback errors it is never
restarted by this call. -/
theorem c2_playback_single_attempt_and_restart (recording ended : Bool)
    (outcome : TTSOutcome) :
    (playBackendTTSTrace recording ended outcome).count .ttsRequest = 1 ∧
    (playBackendTTSTrace recording ended outcome).count .play ≤ 1 ∧
    (speakingWrites (playBackendTTSTrace recording ended outcome)).head? = some true ∧
    (speakingWrites (playBackendTTSTrace recording ended outcome)).getLast? = some false ∧
    (TTSAct.recStart ∈ playBackendTTSTrace recording ended outcome ↔
      outcome = .completed ∧ recording = true ∧ ended = false) := by
  cases recording <;> cases ended <;> cases outcome <;> decide

/-- Witness for C2 (amended): on successful completion in an Active session
the recognizer is restarted. -/
theorem c2_playback_single_attempt_and_restart_witness :
    TTSAct.recStart ∈ playBackendTTSTrace true false .completed :=
  (c2_playback_single_attempt_and_restart true false .completed).2.2.2.2.mpr
    ⟨rfl, rfl, rfl⟩

end PsycheAI
